import Mathlib

/-!
Verification development for the rtl-generator repository: a shallow
embedding in Lean 4 of the component static-analysis engine, the
gateway orchestration (circuit breaker, retry), the validation engine,
and the prompt builder, together with theorems settling the spec claims.

All definitions are translated from the TypeScript sources; definitions
whose name carries a `Spec` suffix instead restate the specification's
words for refinement comparison.
-/

namespace RtlGen

/-! ## Data model (src/services/code-analysis/src/types/analysis.ts) -/

/-- `ComponentType` (`'functional' | 'class'`); `classComponent` stands for
the source's `'class'` string (a Lean keyword). -/
inductive ComponentType
  | functional
  | classComponent
  deriving DecidableEq, Repr

structure PropDefinition where
  name : String
  type : Option String
  required : Bool
  defaultValue : Option String
  description : Option String
  deriving DecidableEq, Repr

structure StateUsage where
  name : String
  initialValue : Option String
  deriving DecidableEq, Repr

structure HookUsage where
  name : String
  dependencies : Option (List String)
  deriving DecidableEq, Repr

structure EventHandler where
  name : String
  handler : String
  element : Option String
  deriving DecidableEq, Repr

/-- `ImportDefinition`; the source's `namespace` field is named `nspace`
here (`namespace` is a Lean keyword). -/
structure ImportDefinition where
  source : String
  imported : List String
  nspace : Option String
  defaultImport : Option String
  deriving DecidableEq, Repr

structure ComponentAnalysis where
  name : String
  type : ComponentType
  props : List PropDefinition
  state : List StateUsage
  hooks : List HookUsage
  eventHandlers : List EventHandler
  imports : List ImportDefinition
  dataTestIds : List String
  complexity : Nat
  testingRecommendations : List String
  deriving DecidableEq, Repr

/-! ## Complexity (analysisController.ts, `calculateComplexity`, lines 27-34) -/

/-- Embeds `calculateComplexity`:
`Math.max(base, propWeight + hookWeight + eventWeight + dependencyWeight)`
with `base = 1`, `propWeight = props.length`, `hookWeight = hooks.length * 2`,
`eventWeight = eventHandlers.length * 2`,
`dependencyWeight = Math.min(imports.length, 10)`. -/
def calculateComplexity (analysis : ComponentAnalysis) : Nat :=
  let base := 1
  let propWeight := analysis.props.length
  let hookWeight := analysis.hooks.length * 2
  let eventWeight := analysis.eventHandlers.length * 2
  let dependencyWeight := min analysis.imports.length 10
  max base (propWeight + hookWeight + eventWeight + dependencyWeight)

/-- The specification's complexity formula, stated in the spec's own words:
`max(1, props.length + 2*hooks.length + 2*eventHandlers.length + min(imports.length, 10))`. -/
def complexitySpecFormula (p h e i : Nat) : Nat :=
  max 1 (p + 2 * h + 2 * e + min i 10)

/-! ## Circuit breaker (serviceClient.ts, class `CircuitBreaker`, lines 27-78) -/

inductive BreakerState
  | CLOSED
  | OPEN
  | HALF_OPEN
  deriving DecidableEq, Repr

/-- The mutable fields of class `CircuitBreaker` together with its two
constructor parameters (`failureThreshold`, `cooldownMs`).  Timestamps are
modelled as `Nat` milliseconds; `Date.now()` becomes an explicit `now`
argument of each operation. -/
structure CircuitBreaker where
  state : BreakerState
  failureCount : Nat
  nextAttemptTimestamp : Nat
  failureThreshold : Nat
  cooldownMs : Nat
  deriving DecidableEq, Repr

/-- A fresh breaker: `state = 'CLOSED'`, `failureCount = 0`,
`nextAttemptTimestamp = 0`. -/
def CircuitBreaker.mk0 (failureThreshold cooldownMs : Nat) : CircuitBreaker :=
  { state := .CLOSED
    failureCount := 0
    nextAttemptTimestamp := 0
    failureThreshold := failureThreshold
    cooldownMs := cooldownMs }

/-- Embeds `onSuccess` (lines 64-67): counter reset, state `CLOSED`. -/
def CircuitBreaker.onSuccess (cb : CircuitBreaker) : CircuitBreaker :=
  { cb with failureCount := 0, state := .CLOSED }

/-- Embeds `onFailure` (lines 69-77): increment the counter; at or above the
threshold go `OPEN` and record `Date.now() + cooldownMs`, otherwise the
source sets the state to `HALF_OPEN`. -/
def CircuitBreaker.onFailure (cb : CircuitBreaker) (now : Nat) : CircuitBreaker :=
  let fc := cb.failureCount + 1
  if cb.failureThreshold ≤ fc then
    { cb with failureCount := fc, state := .OPEN, nextAttemptTimestamp := now + cb.cooldownMs }
  else
    { cb with failureCount := fc, state := .HALF_OPEN }

/-- Outcome of the wrapped `action()` when the breaker lets it run. -/
inductive ExecOutcome
  | success
  | failure
  deriving DecidableEq, Repr

/-- Observable result of one `execute` call.  `threwUnavailable` models the
`ServiceError.unavailable` throw taken *without* invoking the action;
the other two constructors record that the action was invoked. -/
inductive ExecResult
  | threwUnavailable
  | actionSucceeded
  | actionFailed
  deriving DecidableEq, Repr

/-- Embeds `execute` (lines 40-62).  The wrapped asynchronous action is
modelled by its outcome: if the breaker admits the call, the action runs and
`onSuccess`/`onFailure` is applied; an `OPEN` breaker whose deadline has not
passed rejects without consulting the outcome. -/
def CircuitBreaker.execute (cb : CircuitBreaker) (now : Nat) (outcome : ExecOutcome) :
    CircuitBreaker × ExecResult :=
  if cb.state = .OPEN ∧ now < cb.nextAttemptTimestamp then
    (cb, .threwUnavailable)
  else
    let cb1 := if cb.state = .OPEN then { cb with state := .HALF_OPEN } else cb
    match outcome with
    | .success => (cb1.onSuccess, .actionSucceeded)
    | .failure => (cb1.onFailure now, .actionFailed)

/-- A sequence of calls against one breaker: each list entry is the call's
clock reading paired with what the action would do if invoked. -/
def CircuitBreaker.executeSeq (cb : CircuitBreaker) :
    List (Nat × ExecOutcome) → CircuitBreaker × List ExecResult
  | [] => (cb, [])
  | c :: rest =>
    let (cb1, r) := cb.execute c.1 c.2
    let (cb2, rs) := cb1.executeSeq rest
    (cb2, r :: rs)

/-- An `OPEN` breaker whose deadline lies strictly beyond every call time
rejects every call in the sequence and its state never changes. -/
theorem executeSeq_open_rejects (cb : CircuitBreaker) (calls : List (Nat × ExecOutcome))
    (hopen : cb.state = .OPEN)
    (h : ∀ c ∈ calls, c.1 < cb.nextAttemptTimestamp) :
    cb.executeSeq calls = (cb, calls.map fun _ => ExecResult.threwUnavailable) := by
  induction calls with
  | nil => simp [CircuitBreaker.executeSeq]
  | cons c rest ih =>
    have hc : c.1 < cb.nextAttemptTimestamp := h c (by simp)
    have hexec : cb.execute c.1 c.2 = (cb, .threwUnavailable) := by
      simp [CircuitBreaker.execute, hopen, hc]
    simp [CircuitBreaker.executeSeq, hexec, ih (fun d hd => h d (List.mem_cons_of_mem c hd))]

/-- The breaker invariant `state = OPEN → failureThreshold ≤ failureCount`
holds initially and is preserved by every call. -/
theorem breaker_open_invariant (cb : CircuitBreaker) (now : Nat) (o : ExecOutcome)
    (hinv : cb.state = .OPEN → cb.failureThreshold ≤ cb.failureCount) :
    (cb.execute now o).1.state = .OPEN →
      (cb.execute now o).1.failureThreshold ≤ (cb.execute now o).1.failureCount := by
  unfold CircuitBreaker.execute
  split
  · exact hinv
  · cases o with
    | success => simp [CircuitBreaker.onSuccess]
    | failure =>
      simp only [CircuitBreaker.onFailure]
      split <;> split <;> simp_all

/-- C2: for every analysis the computed complexity equals
`max(1, props.length + 2*hooks.length + 2*eventHandlers.length + min(imports.length, 10))`,
it is at least 1, and it depends only on the four extracted lists
(deterministic pure function of their lengths). -/
theorem complexity_matches_spec (a : ComponentAnalysis) :
    calculateComplexity a
      = complexitySpecFormula a.props.length a.hooks.length a.eventHandlers.length
          a.imports.length
    ∧ 1 ≤ calculateComplexity a
    ∧ ∀ b : ComponentAnalysis,
        a.props.length = b.props.length →
        a.hooks.length = b.hooks.length →
        a.eventHandlers.length = b.eventHandlers.length →
        a.imports.length = b.imports.length →
        calculateComplexity a = calculateComplexity b := by
  refine ⟨?_, ?_, ?_⟩
  · simp only [calculateComplexity, complexitySpecFormula]
    omega
  · simp only [calculateComplexity]
    exact le_max_left 1 _
  · intro b hp hh he hi
    simp only [calculateComplexity, hp, hh, he, hi]

/-- Witness for C2 at a concrete analysis (one prop, one handler). -/
theorem complexity_matches_spec_witness :
    calculateComplexity
        { name := "Greeting", type := .functional
          props := [{ name := "name", type := some "string", required := true
                      defaultValue := none, description := none }]
          state := [], hooks := []
          eventHandlers := [{ name := "onClick", handler := "anonymous", element := some "button" }]
          imports := [], dataTestIds := ["btn"], complexity := 3
          testingRecommendations := [] }
      = complexitySpecFormula 1 0 1 0
    ∧ calculateComplexity
        { name := "Greeting", type := .functional
          props := [{ name := "name", type := some "string", required := true
                      defaultValue := none, description := none }]
          state := [], hooks := []
          eventHandlers := [{ name := "onClick", handler := "anonymous", element := some "button" }]
          imports := [], dataTestIds := ["btn"], complexity := 3
          testingRecommendations := [] }
      = calculateComplexity
        { name := "Other", type := .classComponent
          props := [{ name := "label", type := none, required := false
                      defaultValue := some "1", description := none }]
          state := [], hooks := []
          eventHandlers := [{ name := "onBlur", handler := "h", element := none }]
          imports := [], dataTestIds := [], complexity := 3
          testingRecommendations := [] } := by
  refine ⟨(complexity_matches_spec _).1, (complexity_matches_spec _).2.2 _ rfl rfl rfl rfl⟩

/-- C3: once a failure drives the consecutive-failure counter to the
configured threshold, the breaker is `OPEN` with deadline `now + cooldownMs`,
and every subsequent call made strictly before that deadline throws the
service-unavailable error without invoking the wrapped action, leaving the
breaker unchanged. -/
theorem breaker_open_rejects_before_deadline (cb : CircuitBreaker) (now : Nat)
    (calls : List (Nat × ExecOutcome))
    (hnopen : cb.state ≠ .OPEN)
    (hthresh : cb.failureThreshold ≤ cb.failureCount + 1)
    (hcalls : ∀ c ∈ calls, c.1 < now + cb.cooldownMs) :
    ((cb.execute now .failure).1.state = .OPEN)
    ∧ ((cb.execute now .failure).1.nextAttemptTimestamp = now + cb.cooldownMs)
    ∧ ((cb.execute now .failure).1.executeSeq calls
        = ((cb.execute now .failure).1, calls.map fun _ => ExecResult.threwUnavailable)) := by
  have hexec : (cb.execute now .failure).1
      = { cb with failureCount := cb.failureCount + 1, state := .OPEN
                  nextAttemptTimestamp := now + cb.cooldownMs } := by
    simp [CircuitBreaker.execute, hnopen, CircuitBreaker.onFailure, hthresh]
  refine ⟨by rw [hexec], by rw [hexec], ?_⟩
  rw [hexec]
  exact executeSeq_open_rejects _ _ rfl (by simpa using hcalls)

/-- Witness for C3: threshold 2, a breaker one failure short, two later
calls inside the cooldown window. -/
theorem breaker_open_rejects_before_deadline_witness :
    let cb : CircuitBreaker :=
      { state := .HALF_OPEN, failureCount := 1, nextAttemptTimestamp := 0
        failureThreshold := 2, cooldownMs := 1000 }
    ((cb.execute 50 .failure).1.state = .OPEN)
    ∧ ((cb.execute 50 .failure).1.nextAttemptTimestamp = 1050)
    ∧ ((cb.execute 50 .failure).1.executeSeq [(100, .success), (1049, .failure)]
        = ((cb.execute 50 .failure).1,
            [ExecResult.threwUnavailable, ExecResult.threwUnavailable])) :=
  breaker_open_rejects_before_deadline _ 50 _ (by decide) (by decide) (by decide)

/-- C4 counterexample: a fresh breaker (threshold 3) that suffers one failing
call moves to `HALF_OPEN`, not `CLOSED` — the claim that the breaker stays
`CLOSED` while the counter is below the threshold is false on the code. -/
theorem breaker_below_threshold_not_closed_cex :
    ((CircuitBreaker.mk0 3 1000).execute 0 .failure).1.state = .HALF_OPEN
    ∧ ((CircuitBreaker.mk0 3 1000).execute 0 .failure).1.failureCount = 1
    ∧ BreakerState.HALF_OPEN ≠ BreakerState.CLOSED := by decide

/-- C4 amended: a failing call on a non-`OPEN` breaker increments the
counter; when the incremented counter reaches the threshold the breaker goes
`OPEN` recording the deadline `now + cooldownMs`, and otherwise it is set to
`HALF_OPEN` (not kept `CLOSED`); `HALF_OPEN` admits calls exactly like
`CLOSED` (the two states are observationally equivalent for `execute`). -/
theorem breaker_failure_transition (cb : CircuitBreaker) (now : Nat) (o : ExecOutcome)
    (hnopen : cb.state ≠ .OPEN) :
    ((cb.execute now .failure).1.failureCount = cb.failureCount + 1)
    ∧ (cb.failureThreshold ≤ cb.failureCount + 1 →
        (cb.execute now .failure).1.state = .OPEN
        ∧ (cb.execute now .failure).1.nextAttemptTimestamp = now + cb.cooldownMs)
    ∧ (cb.failureCount + 1 < cb.failureThreshold →
        (cb.execute now .failure).1.state = .HALF_OPEN
        ∧ (cb.execute now .failure).1.nextAttemptTimestamp = cb.nextAttemptTimestamp)
    ∧ (cb.state = .CLOSED →
        cb.execute now o = CircuitBreaker.execute { cb with state := .HALF_OPEN } now o) := by
  refine ⟨?_, ?_, ?_, ?_⟩
  · by_cases h : cb.failureThreshold ≤ cb.failureCount + 1 <;>
      simp [CircuitBreaker.execute, hnopen, CircuitBreaker.onFailure, h]
  · intro h
    simp [CircuitBreaker.execute, hnopen, CircuitBreaker.onFailure, h]
  · intro h
    simp [CircuitBreaker.execute, hnopen, CircuitBreaker.onFailure, Nat.not_le.mpr h]
  · intro hclosed
    cases o <;>
      simp [CircuitBreaker.execute, hclosed, CircuitBreaker.onSuccess, CircuitBreaker.onFailure]

/-- Witness for C4 amended: fresh breaker with threshold 2; first failure
goes `HALF_OPEN`, and `CLOSED` behaves like `HALF_OPEN`. -/
theorem breaker_failure_transition_witness :
    (((CircuitBreaker.mk0 2 500).execute 7 .failure).1.failureCount = 1)
    ∧ (((CircuitBreaker.mk0 2 500).execute 7 .failure).1.state = .HALF_OPEN
        ∧ ((CircuitBreaker.mk0 2 500).execute 7 .failure).1.nextAttemptTimestamp = 0)
    ∧ ((CircuitBreaker.mk0 2 500).execute 7 .success
        = CircuitBreaker.execute { CircuitBreaker.mk0 2 500 with state := .HALF_OPEN } 7
            .success) := by
  refine ⟨(breaker_failure_transition (CircuitBreaker.mk0 2 500) 7 .success (by decide)).1,
    (breaker_failure_transition (CircuitBreaker.mk0 2 500) 7 .success (by decide)).2.2.1
      (by decide),
    (breaker_failure_transition (CircuitBreaker.mk0 2 500) 7 .success (by decide)).2.2.2 rfl⟩

/-- C5: an `OPEN` breaker whose cooldown deadline has passed attempts the
next call (it is not rejected); a success moves it to `CLOSED` with the
counter reset to 0, a failure moves it back to `OPEN` with the fresh deadline
`now + cooldownMs`.  (The counter hypothesis is the reachable-state invariant
`state = OPEN → failureThreshold ≤ failureCount`.) -/
theorem breaker_halfopen_transition (cb : CircuitBreaker) (now : Nat) (o : ExecOutcome)
    (hopen : cb.state = .OPEN)
    (hdl : cb.nextAttemptTimestamp ≤ now)
    (hcnt : cb.failureThreshold ≤ cb.failureCount) :
    ((cb.execute now o).2 ≠ .threwUnavailable)
    ∧ (o = .success →
        (cb.execute now o).1.state = .CLOSED ∧ (cb.execute now o).1.failureCount = 0)
    ∧ (o = .failure →
        (cb.execute now o).1.state = .OPEN
        ∧ (cb.execute now o).1.nextAttemptTimestamp = now + cb.cooldownMs) := by
  have hlt : ¬ now < cb.nextAttemptTimestamp := Nat.not_lt.mpr hdl
  refine ⟨?_, ?_, ?_⟩
  · cases o <;>
      simp [CircuitBreaker.execute, hlt, hopen, CircuitBreaker.onSuccess,
        CircuitBreaker.onFailure]
  · intro h
    subst h
    simp [CircuitBreaker.execute, hlt, hopen, CircuitBreaker.onSuccess]
  · intro h
    subst h
    have hth : cb.failureThreshold ≤ cb.failureCount + 1 := Nat.le_succ_of_le hcnt
    simp [CircuitBreaker.execute, hlt, hopen, CircuitBreaker.onFailure, hth]

/-- Witness for C5: an `OPEN` breaker past its deadline, both outcomes. -/
theorem breaker_halfopen_transition_witness :
    let cb : CircuitBreaker :=
      { state := .OPEN, failureCount := 3, nextAttemptTimestamp := 1000
        failureThreshold := 3, cooldownMs := 1000 }
    ((cb.execute 1000 .success).2 ≠ .threwUnavailable)
    ∧ ((cb.execute 1000 .success).1.state = .CLOSED
        ∧ (cb.execute 1000 .success).1.failureCount = 0)
    ∧ ((cb.execute 1000 .failure).1.state = .OPEN
        ∧ (cb.execute 1000 .failure).1.nextAttemptTimestamp = 2000) :=
  ⟨(breaker_halfopen_transition _ 1000 .success (by decide) (by decide) (by decide)).1,
    (breaker_halfopen_transition _ 1000 .success (by decide) (by decide) (by decide)).2.1 rfl,
    (breaker_halfopen_transition _ 1000 .failure (by decide) (by decide) (by decide)).2.2 rfl⟩

/-! ## Component AST and name detection
(componentParser.ts, `extractComponentName`, lines 207-261)

The embedding covers the node kinds the name-detection visitors inspect:
expressions that can appear as a variable initializer or a default-export
payload, and statements.  `traverse` visits nodes in pre-order (a node
before its children, siblings in source order); the visitors guard on
`detectedName`, so detection is first-match in that order. -/

inductive JsExpr
  | identExpr (name : String)
  | funcExpr (id : Option String)
  | arrowExpr
  | callExpr (args : List JsExpr)
  | otherExpr

/-- The `declaration` payload of an `ExportDefaultDeclaration` node. -/
inductive DefaultDecl
  | declIdent (name : String)
  | declFunc (id : Option String)
  | declClass (id : Option String)
  | declCall (args : List JsExpr)
  | declOther

/-- Statements: function declarations carry their body (the traversal is
deep, so nested declarations are visited too); a variable declaration is a
list of declarators, each an optional identifier pattern name with an
optional initializer. -/
inductive Stmt
  | funcDecl (id : Option String) (body : List Stmt)
  | classDecl (id : Option String)
  | varDecl (declarators : List (Option String × Option JsExpr))
  | exportDefaultDecl (d : DefaultDecl)
  | otherStmt

/-- `isComponentName` (componentParser.ts lines 38-39): `/^[A-Z]/.test(name)`. -/
def isComponentName (name : String) : Bool :=
  match name.data with
  | [] => false
  | c :: _ => decide ('A' ≤ c) && decide (c ≤ 'Z')

/-- The `ExportDefaultDeclaration` visitor (lines 211-234): a named
identifier, named function/class declaration, or a call whose first argument
is an identifier or a named function expression. -/
def exportDefaultName : DefaultDecl → Option String
  | .declIdent n => some n
  | .declFunc (some n) => some n
  | .declFunc none => none
  | .declClass (some n) => some n
  | .declClass none => none
  | .declCall (JsExpr.identExpr n :: _) => some n
  | .declCall (JsExpr.funcExpr (some n) :: _) => some n
  | .declCall _ => none
  | .declOther => none

/-- The `VariableDeclarator` visitor (lines 245-257): identifier pattern
with an uppercase name bound to an arrow/function expression. -/
def declaratorName : Option String × Option JsExpr → Option String
  | (some n, some JsExpr.arrowExpr) => if isComponentName n then some n else none
  | (some n, some (JsExpr.funcExpr _)) => if isComponentName n then some n else none
  | _ => none

def declaratorsName : List (Option String × Option JsExpr) → Option String
  | [] => none
  | d :: rest => (declaratorName d).orElse fun _ => declaratorsName rest

mutual

/-- First name detected in one statement (visitor on the node itself, then
its children in pre-order). -/
def stmtName : Stmt → Option String
  | .funcDecl id body =>
    (match id with
      | some n => if isComponentName n then some n else none
      | none => none).orElse fun _ => stmtsName body
  | .classDecl (some n) => if isComponentName n then some n else none
  | .classDecl none => none
  | .varDecl ds => declaratorsName ds
  | .exportDefaultDecl d => exportDefaultName d
  | .otherStmt => none

def stmtsName : List Stmt → Option String
  | [] => none
  | s :: rest => (stmtName s).orElse fun _ => stmtsName rest

end

/-- Embeds `extractComponentName` (lines 207-261): first match of the four
visitors in babel's pre-order traversal of the program. -/
def extractComponentName (program : List Stmt) : Option String :=
  stmtsName program

theorem stmtsName_append (xs ys : List Stmt) :
    stmtsName (xs ++ ys) = (stmtsName xs).orElse fun _ => stmtsName ys := by
  induction xs with
  | nil => simp [stmtsName]
  | cons s rest ih =>
    simp only [List.cons_append, stmtsName]
    cases h : stmtName s <;> simp [h, Option.orElse, ih]

/-- C1 counterexample: a file with a top-level uppercase helper function
declared before the component.  `function Helper() {}` followed by
`const App = () => ...; export default App;` makes `extractComponentName`
return `"Helper"`, not the default-exported `"App"` — the default-export
rules do not always win over rules (c)-(e). -/
theorem default_export_precedence_cex :
    extractComponentName
        [Stmt.funcDecl (some "Helper") [],
          Stmt.varDecl [(some "App", some JsExpr.arrowExpr)],
          Stmt.exportDefaultDecl (DefaultDecl.declIdent "App")]
      = some "Helper"
    ∧ some "Helper" ≠ some "App" := by decide

/-- C1 amended: name detection is first-match in babel's pre-order
traversal (source order), not rule-precedence order: the default-exported
declaration's name is returned exactly when no statement traversed before
the default export already matches one of the visitors; in that case
`extract` does return the default export's name. -/
theorem default_export_first_match (pre post : List Stmt) (d : DefaultDecl) (n : String)
    (hpre : stmtsName pre = none)
    (hd : exportDefaultName d = some n) :
    extractComponentName (pre ++ Stmt.exportDefaultDecl d :: post) = some n := by
  unfold extractComponentName
  rw [stmtsName_append, hpre]
  simp [Option.orElse, stmtsName, stmtName, hd]

/-- Witness for C1 amended: `export default function App() {}` preceded by
a lowercase (non-matching) helper function. -/
theorem default_export_first_match_witness :
    extractComponentName
        [Stmt.funcDecl (some "helper") [], Stmt.exportDefaultDecl (DefaultDecl.declFunc
          (some "App")), Stmt.otherStmt]
      = some "App" :=
  default_export_first_match [Stmt.funcDecl (some "helper") []] [Stmt.otherStmt]
    (DefaultDecl.declFunc (some "App")) "App" (by decide) rfl

/-! ## analyzeComponent: name resolution and its error
(analysisController.ts lines 49-110, ServiceError in types/analysis.ts) -/

/-- The fields of `ServiceError` relevant to the error taxonomy. -/
structure ServiceErrorModel where
  message : String
  statusCode : Nat
  code : String
  deriving DecidableEq, Repr

/-- `ServiceError.parsing` (types/analysis.ts lines 77-79): HTTP 422 with
machine-readable kind `'parsing_error'`. -/
def serviceErrorParsing (message : String) : ServiceErrorModel :=
  { message := message, statusCode := 422, code := "parsing_error" }

/-- The error thrown when the source fails to parse
(analysisController.ts line 105). -/
def parseFailureError : ServiceErrorModel :=
  serviceErrorParsing "Failed to parse component code."

/-- The error thrown when no component name can be determined
(analysisController.ts line 56). -/
def ambiguousNameError : ServiceErrorModel :=
  serviceErrorParsing "Unable to determine component name. Provide componentName in the payload."

/-- Embeds the name-resolution step of `analyzeComponent` (lines 52-57):
`componentName = payload.componentName ?? extractComponentName(ast)`; when
both are absent the controller throws `ambiguousNameError`. -/
def resolveComponentName (hint : Option String) (program : List Stmt) :
    Except ServiceErrorModel String :=
  match hint.orElse fun _ => extractComponentName program with
  | some n => .ok n
  | none => .error ambiguousNameError

/-- C6 counterexample: on a valid source with no matching declaration and
no hint, the analyze operation fails with a `ServiceError` whose kind is
`'parsing_error'` — the *same* kind `ServiceError.parsing` gives a
`ParseError`, so the failure is not of a kind distinct from `ParseError`
(no `AmbiguousComponentError` kind exists in the code). -/
theorem ambiguous_error_kind_cex :
    resolveComponentName none [Stmt.otherStmt] = .error ambiguousNameError
    ∧ ambiguousNameError.code = parseFailureError.code
    ∧ ambiguousNameError.code = "parsing_error" := ⟨rfl, rfl, rfl⟩

/-- C6 amended: for every source in which no name-detection rule matches
and with no hint supplied, analysis fails with the fixed
`"Unable to determine component name"` `ServiceError` — carrying HTTP 422
and kind `'parsing_error'`, the same kind as a parse failure, distinguished
only by its message. -/
theorem ambiguous_name_fails_with_parsing_kind (program : List Stmt)
    (h : extractComponentName program = none) :
    resolveComponentName none program = .error ambiguousNameError
    ∧ ambiguousNameError.statusCode = 422
    ∧ ambiguousNameError.code = parseFailureError.code
    ∧ ambiguousNameError.message ≠ parseFailureError.message := by
  refine ⟨?_, rfl, rfl, by decide⟩
  simp [resolveComponentName, Option.orElse, h]

/-- Witness for C6 amended at a concrete ruleless program. -/
theorem ambiguous_name_fails_with_parsing_kind_witness :
    resolveComponentName none [Stmt.varDecl [(some "App", none)], Stmt.otherStmt]
        = .error ambiguousNameError
    ∧ ambiguousNameError.statusCode = 422
    ∧ ambiguousNameError.code = parseFailureError.code
    ∧ ambiguousNameError.message ≠ parseFailureError.message :=
  ambiguous_name_fails_with_parsing_kind
    [Stmt.varDecl [(some "App", none)], Stmt.otherStmt] (by decide)

/-! ## Validation engine
(test-validation/src/controllers/validationController.ts) -/

/-- `needle` matches at the start of `hay`. -/
def charsLeadMatch : List Char → List Char → Bool
  | [], _ => true
  | _ :: _, [] => false
  | a :: as, b :: bs => a == b && charsLeadMatch as bs

/-- Occurrence of `needle` anywhere in `hay`. -/
def charsContain : List Char → List Char → Bool
  | [], needle => charsLeadMatch needle []
  | h :: rest, needle => charsLeadMatch needle (h :: rest) || charsContain rest needle

/-- JS `hay.includes(needle)`. -/
def strIncludes (hay needle : String) : Bool :=
  charsContain hay.data needle.data

/-- Embeds `evaluateTest` (lines 29-49): trim, then three independent
checks, each appending its issue string. -/
def evaluateTest (content : String) : Bool × List String :=
  let normalized := content.trim
  let issues : List String := []
  let issues := issues ++
    (if normalized.length == 0 then ["Generated test content is empty."] else [])
  let issues := issues ++
    (if !strIncludes normalized "describe(" && !strIncludes normalized "test(" &&
        !strIncludes normalized "it(" then
      ["Test should include at least one describe/test/it block."]
    else [])
  let issues := issues ++
    (if !strIncludes normalized "@testing-library/react" then
      ["Test should import from @testing-library/react."]
    else [])
  (issues.length == 0, issues)

/-- Embeds `detectSyntaxIssues` (lines 51-65).  The babel parser is an
external dependency; it is modelled by an oracle: `parseOk` says whether
`parse` succeeds on the content and `cleanedMsg` is the parser message
after the position-suffix strip. -/
def detectSyntaxIssues (parseOk : Bool) (cleanedMsg : String) : List String :=
  if parseOk then []
  else ["Syntax error detected in generated test: " ++ cleanedMsg]

structure ValidationVerdict where
  valid : Bool
  issues : List String
  deriving DecidableEq, Repr

/-- Embeds the verdict computation of `validateGeneratedTest`
(lines 74-83): base issues from `evaluateTest`, syntax issues appended,
`valid` iff the combined issue list is empty. -/
def validateGeneratedTest (content : String) (parseOk : Bool) (cleanedMsg : String) :
    ValidationVerdict :=
  let baseResult := evaluateTest content
  let syntaxIssues := detectSyntaxIssues parseOk cleanedMsg
  let combinedIssues := baseResult.2 ++ syntaxIssues
  { valid := combinedIssues.length == 0, issues := combinedIssues }

/-- C7: the four checks are independent and their issues accumulate — the
issue list is exactly the concatenation of each check's contribution,
`valid` holds iff the list is empty, content lacking the testing-library
marker yields the import issue among possibly others, and unparseable content
yields `valid = false` with a syntax-error issue present. -/
theorem validation_checks_accumulate (content : String) (parseOk : Bool) (msg : String) :
    ((validateGeneratedTest content parseOk msg).valid = true
      ↔ (validateGeneratedTest content parseOk msg).issues = [])
    ∧ (validateGeneratedTest content parseOk msg).issues =
        (if content.trim.length == 0 then ["Generated test content is empty."] else [])
        ++ (if !strIncludes content.trim "describe(" && !strIncludes content.trim "test(" &&
              !strIncludes content.trim "it(" then
            ["Test should include at least one describe/test/it block."]
          else [])
        ++ (if !strIncludes content.trim "@testing-library/react" then
            ["Test should import from @testing-library/react."]
          else [])
        ++ (if parseOk then []
          else ["Syntax error detected in generated test: " ++ msg])
    ∧ (strIncludes content.trim "@testing-library/react" = false →
        "Test should import from @testing-library/react."
          ∈ (validateGeneratedTest content parseOk msg).issues)
    ∧ (parseOk = false →
        (validateGeneratedTest content parseOk msg).valid = false
        ∧ ("Syntax error detected in generated test: " ++ msg)
            ∈ (validateGeneratedTest content parseOk msg).issues) := by
  refine ⟨?_, ?_, ?_, ?_⟩
  · simp [validateGeneratedTest, List.length_eq_zero]
  · simp [validateGeneratedTest, evaluateTest, detectSyntaxIssues]
  · intro h
    simp [validateGeneratedTest, evaluateTest, h]
  · intro h
    subst h
    constructor
    · simp [validateGeneratedTest, detectSyntaxIssues]
    · simp [validateGeneratedTest, detectSyntaxIssues]

/-- Witness for C7: content with no testing-library import that also fails
to parse. -/
theorem validation_checks_accumulate_witness :
    (strIncludes "const x = 1;".trim "@testing-library/react" = false →
      "Test should import from @testing-library/react."
        ∈ (validateGeneratedTest "const x = 1;" false "Unexpected token").issues)
    ∧ ((validateGeneratedTest "const x = 1;" false "Unexpected token").valid = false
        ∧ ("Syntax error detected in generated test: " ++ "Unexpected token")
            ∈ (validateGeneratedTest "const x = 1;" false "Unexpected token").issues) :=
  ⟨(validation_checks_accumulate "const x = 1;" false "Unexpected token").2.2.1,
    (validation_checks_accumulate "const x = 1;" false "Unexpected token").2.2.2 rfl⟩

/-! ## Retry with backoff
(serviceClient.ts `requestWithRetry` lines 237-274;
ollamaClient.ts `executeWithRetry` lines 227-245) -/

/-- ollamaClient.ts line 13. -/
def RETRY_ATTEMPTS : Nat := 2

/-- ollamaClient.ts line 14. -/
def RETRY_DELAY_MS : Nat := 250

/-- Observable trace of one retry loop: attempts actually made, the delays
awaited between them (in order), and whether the loop returned. -/
structure RetryTrace where
  attemptsMade : Nat
  delays : List Nat
  succeeded : Bool
  deriving DecidableEq, Repr

/-- The retry loop shape shared verbatim by both clients:
`attempt = 0; while (attempt <= maxRetry) { try return op(); catch {
attempt += 1; if (attempt > maxRetry) throw; await delay(delayOf(attempt)); } }`.
`outcome k` is the transport's behaviour on attempt `k` (0-based);
`fuel` is the number of loop iterations still permitted
(`maxRetry + 1 - attempt`). -/
def retryLoop (delayOf : Nat → Nat) (outcome : Nat → Bool) :
    Nat → Nat → RetryTrace
  | _, 0 => { attemptsMade := 0, delays := [], succeeded := false }
  | attempt, fuel + 1 =>
    if outcome attempt then
      { attemptsMade := 1, delays := [], succeeded := true }
    else if fuel = 0 then
      { attemptsMade := 1, delays := [], succeeded := false }
    else
      let t := retryLoop delayOf outcome (attempt + 1) fuel
      { attemptsMade := t.attemptsMade + 1
        delays := delayOf (attempt + 1) :: t.delays
        succeeded := t.succeeded }

/-- Embeds `ServiceClient.requestWithRetry`: exponential backoff
`Math.pow(2, attempt) * 100` after the post-increment of `attempt`. -/
def requestWithRetry (retryAttempts : Nat) (outcome : Nat → Bool) : RetryTrace :=
  retryLoop (fun attempt => 2 ^ attempt * 100) outcome 0 (retryAttempts + 1)

/-- Embeds `OllamaClient.executeWithRetry`: linear backoff
`RETRY_DELAY_MS * attempt` after the post-increment of `attempt`. -/
def executeWithRetry (outcome : Nat → Bool) : RetryTrace :=
  retryLoop (fun attempt => RETRY_DELAY_MS * attempt) outcome 0 (RETRY_ATTEMPTS + 1)

/-- Every retry loop awaits exactly `delayOf (attempt+1+i)` before the
`i`-th retry and makes at most `fuel` attempts (at least one when fuel
allows). -/
theorem retryLoop_delays (delayOf : Nat → Nat) (outcome : Nat → Bool)
    (attempt fuel : Nat) :
    ((retryLoop delayOf outcome attempt fuel).delays
      = (List.range ((retryLoop delayOf outcome attempt fuel).attemptsMade - 1)).map
          fun i => delayOf (attempt + 1 + i))
    ∧ (retryLoop delayOf outcome attempt fuel).attemptsMade ≤ fuel
    ∧ (1 ≤ fuel → 1 ≤ (retryLoop delayOf outcome attempt fuel).attemptsMade) := by
  induction fuel generalizing attempt with
  | zero => simp [retryLoop]
  | succ fuel ih =>
    by_cases h : outcome attempt = true
    · simp [retryLoop, h]
    · rcases Nat.eq_zero_or_pos fuel with hf | hf
      · subst hf
        simp [retryLoop, h]
      · have hne : fuel ≠ 0 := Nat.pos_iff_ne_zero.mp hf
        obtain ⟨ihd, ihle, ihpos⟩ := ih (attempt + 1)
        have hpos := ihpos hf
        have hd : (retryLoop delayOf outcome attempt (fuel + 1)).delays
            = delayOf (attempt + 1)
              :: (retryLoop delayOf outcome (attempt + 1) fuel).delays := by
          simp [retryLoop, h, hne]
        have ha : (retryLoop delayOf outcome attempt (fuel + 1)).attemptsMade
            = (retryLoop delayOf outcome (attempt + 1) fuel).attemptsMade + 1 := by
          simp [retryLoop, h, hne]
        rw [hd, ha]
        refine ⟨?_, by omega, fun _ => by omega⟩
        rw [ihd]
        obtain ⟨m, hm⟩ : ∃ m, (retryLoop delayOf outcome (attempt + 1) fuel).attemptsMade
            = m + 1 := ⟨_, (Nat.succ_pred_eq_of_pos hpos).symm⟩
        rw [hm]
        simp only [Nat.add_sub_cancel, List.range_succ_eq_map, List.map_cons, List.map_map]
        congr 1
        apply List.map_congr_left
        intro i _
        simp only [Function.comp]
        congr 1
        omega

/-- C8 counterexample: the generation adapter's backoff is linear, not
exponential.  With every attempt failing, `OllamaClient.executeWithRetry`
awaits `[250, 500]` = `RETRY_DELAY_MS * k` before retry `k`; the claimed
exponential law `base × 2^k` with the configured base `RETRY_DELAY_MS`
would await `500` before the first retry. -/
theorem ollama_backoff_linear_cex :
    (executeWithRetry fun _ => false).delays = [RETRY_DELAY_MS * 1, RETRY_DELAY_MS * 2]
    ∧ (executeWithRetry fun _ => false).delays.head? = some 250
    ∧ RETRY_DELAY_MS * 2 ^ 1 = 500
    ∧ (250 : Nat) ≠ 500 := by decide

/-- C8 amended: each retry stays local to one transport call with a bounded
attempt count; the gateway's delay before retry `k` is `100ms × 2^k`
(exponential), while the ollama client's is `RETRY_DELAY_MS × k` (linear). -/
theorem retry_backoff_schedules (retryAttempts : Nat) (outcomeA outcomeB : Nat → Bool) :
    ((requestWithRetry retryAttempts outcomeA).delays
        = (List.range ((requestWithRetry retryAttempts outcomeA).attemptsMade - 1)).map
            fun k => 2 ^ (k + 1) * 100)
    ∧ (requestWithRetry retryAttempts outcomeA).attemptsMade ≤ retryAttempts + 1
    ∧ ((executeWithRetry outcomeB).delays
        = (List.range ((executeWithRetry outcomeB).attemptsMade - 1)).map
            fun k => RETRY_DELAY_MS * (k + 1))
    ∧ (executeWithRetry outcomeB).attemptsMade ≤ RETRY_ATTEMPTS + 1 := by
  obtain ⟨hda, hla, -⟩ :=
    retryLoop_delays (fun attempt => 2 ^ attempt * 100) outcomeA 0 (retryAttempts + 1)
  obtain ⟨hdb, hlb, -⟩ :=
    retryLoop_delays (fun attempt => RETRY_DELAY_MS * attempt) outcomeB 0 (RETRY_ATTEMPTS + 1)
  refine ⟨?_, hla, ?_, hlb⟩
  · unfold requestWithRetry
    rw [hda]
    apply List.map_congr_left
    intro i _
    show 2 ^ (0 + 1 + i) * 100 = 2 ^ (i + 1) * 100
    congr 2
    omega
  · unfold executeWithRetry
    rw [hdb]
    apply List.map_congr_left
    intro i _
    show RETRY_DELAY_MS * (0 + 1 + i) = RETRY_DELAY_MS * (i + 1)
    congr 1
    omega

/-! ## Prompt builder
(llm-service/src/prompts/testPromptBuilder.ts, `buildPrompt` lines 49-118) -/

/-- JS `Array.prototype.join(sep)`. -/
def joinSep (sep : String) : List String → String
  | [] => ""
  | [s] => s
  | s :: rest => s ++ sep ++ joinSep sep rest

/-- JS truthiness of a nullable string (`null`/`''` are falsy). -/
def optStrTruthy : Option String → Bool
  | none => false
  | some s => !(s.length == 0)

/-- JS truthiness of `xs?.length` for a nullable array. -/
def optListTruthy : Option (List String) → Bool
  | none => false
  | some l => !(l.length == 0)

/-- JS string interpolation of a boolean. -/
def jsBool : Bool → String
  | true => "true"
  | false => "false"

/-- Interpolation of the `ComponentType` union string. -/
def componentTypeStr : ComponentType → String
  | .functional => "functional"
  | .classComponent => "class"

/-- Embeds `formatProps` (lines 11-19). -/
def formatProps (analysis : ComponentAnalysis) : String :=
  if analysis.props.length == 0 then
    "No explicit props detected."
  else
    joinSep "\n" (analysis.props.map fun prop =>
      "- " ++ prop.name
        ++ (if optStrTruthy prop.type then ": " ++ prop.type.getD "" else "")
        ++ " (required: " ++ jsBool prop.required ++ ")"
        ++ (if optStrTruthy prop.defaultValue then
              " default=" ++ prop.defaultValue.getD ""
            else ""))

/-- Embeds `formatHooks` (lines 21-29). -/
def formatHooks (analysis : ComponentAnalysis) : String :=
  if analysis.hooks.length == 0 then
    "No hooks detected."
  else
    joinSep "\n" (analysis.hooks.map fun hook =>
      "- " ++ hook.name
        ++ (if optListTruthy hook.dependencies then
              " (dependencies: " ++ joinSep ", " (hook.dependencies.getD []) ++ ")"
            else ""))

/-- Embeds `formatEventHandlers` (lines 31-39). -/
def formatEventHandlers (analysis : ComponentAnalysis) : String :=
  if analysis.eventHandlers.length == 0 then
    "No explicit event handlers detected."
  else
    joinSep "\n" (analysis.eventHandlers.map fun handler =>
      "- " ++ handler.name ++ " handled by " ++ handler.handler
        ++ (if optStrTruthy handler.element then
              " on <" ++ handler.element.getD "" ++ ">"
            else ""))

/-- Embeds `formatTestingRecommendations` (lines 41-47). -/
def formatTestingRecommendations (analysis : ComponentAnalysis) : String :=
  if analysis.testingRecommendations.length == 0 then
    "Follow standard React Testing Library best practices."
  else
    joinSep "\n" (analysis.testingRecommendations.map fun rec => "- " ++ rec)

/-- The fixed `header` template literal (line 53). -/
def promptHeader : String :=
  "System: You are an expert React Testing Library test generator. Respond with idiomatic tests that follow best practices."

/-- The `componentSummary` template (lines 55-60). -/
def sectionOverview (analysis : ComponentAnalysis) : String :=
  "Component Overview:\n- Name: " ++ analysis.name
    ++ "\n- Type: " ++ componentTypeStr analysis.type
    ++ "\n- Complexity Score: " ++ toString analysis.complexity
    ++ "\n- Data Test IDs: "
    ++ (if !(analysis.dataTestIds.length == 0) then
          joinSep ", " analysis.dataTestIds
        else "none")
    ++ "\n"

/-- The `propsSection` template (lines 62-64). -/
def sectionProps (analysis : ComponentAnalysis) : String :=
  "Props:\n" ++ formatProps analysis ++ "\n"

/-- The `stateSection` template (lines 66-68). -/
def sectionState (analysis : ComponentAnalysis) : String :=
  "State:\n"
    ++ (if !(analysis.state.length == 0) then
          joinSep "\n" (analysis.state.map fun item =>
            "- " ++ item.name
              ++ (if optStrTruthy item.initialValue then
                    " (initial: " ++ item.initialValue.getD "" ++ ")"
                  else ""))
        else "No local state hooks detected.")
    ++ "\n"

/-- The `hooksSection` template (lines 70-72). -/
def sectionHooks (analysis : ComponentAnalysis) : String :=
  "Hooks:\n" ++ formatHooks analysis ++ "\n"

/-- The `handlersSection` template (lines 74-76). -/
def sectionHandlers (analysis : ComponentAnalysis) : String :=
  "Event Handlers:\n" ++ formatEventHandlers analysis ++ "\n"

/-- The `importsSection` template (lines 78-80):
`[defaultImport, ...imported, namespace].filter(Boolean).join(', ') || 'namespace import'`. -/
def sectionImports (analysis : ComponentAnalysis) : String :=
  "Imported Dependencies:\n"
    ++ (if !(analysis.imports.length == 0) then
          joinSep "\n" (analysis.imports.map fun imp =>
            let kept := (imp.defaultImport.toList ++ imp.imported ++ imp.nspace.toList).filter
              fun s => !(s.length == 0)
            let joined := joinSep ", " kept
            "- " ++ imp.source ++ " ("
              ++ (if joined.length == 0 then "namespace import" else joined) ++ ")")
        else "No external dependencies detected.")
    ++ "\n"

/-- The `recommendationsSection` template (lines 82-84). -/
def sectionRecommendations (analysis : ComponentAnalysis) : String :=
  "Testing Recommendations:\n" ++ formatTestingRecommendations analysis ++ "\n"

/-- The fixed `instructions` template (lines 86-93). -/
def promptInstructions : String :=
  "Instructions:\n1. Write React Testing Library tests using TypeScript.\n2. Import only what is required for the tests.\n3. Cover critical user flows, props combinations, and event handlers.\n4. Use descriptive test names and prefer screen queries over destructuring.\n5. If hooks or async behavior exist, ensure proper usage of act/waitFor.\n6. Provide the final answer as a single test file content. Do not include explanations or additional prose.\n"

/-- The closing directive (line 112). -/
def promptClosing : String :=
  "Begin the test file now."

/-- The `examplesSection` (lines 95-99): rendered only when the caller
passed a non-empty examples array, empty string otherwise. -/
def sectionExamples (examples : Option (List String)) : String :=
  if optListTruthy examples then
    "Few-shot Examples:\n" ++ joinSep "\n---\n" (examples.getD []) ++ "\n"
  else ""

/-- Embeds `buildPrompt` (lines 49-118): the eleven entries in source
order, `.filter(Boolean)` dropping empty strings, joined by blank lines.
`builderOptions?.examples` is modelled by the optional examples list. -/
def buildPrompt (analysis : ComponentAnalysis) (examples : Option (List String)) : String :=
  joinSep "\n\n"
    (([promptHeader, sectionOverview analysis, sectionProps analysis, sectionState analysis,
        sectionHooks analysis, sectionHandlers analysis, sectionImports analysis,
        sectionRecommendations analysis, sectionExamples examples, promptInstructions,
        promptClosing]).filter fun s => !(s.length == 0))

/-- `needle` occurs contiguously inside `hay`. -/
def occursIn (needle hay : String) : Prop :=
  ∃ u v : List Char, hay.data = u ++ needle.data ++ v

theorem strData_append (s t : String) : (s ++ t).data = s.data ++ t.data := rfl

/-- Every element of a list occurs inside the list's join. -/
theorem occursIn_joinSep (sep : String) (l : List String) (s : String) (h : s ∈ l) :
    occursIn s (joinSep sep l) := by
  induction l with
  | nil => cases h
  | cons a rest ih =>
    cases rest with
    | nil =>
      have hs : s = a := by simpa using h
      exact ⟨[], [], by simp [hs, joinSep]⟩
    | cons b t =>
      rcases List.mem_cons.mp h with hs | hs
      · exact ⟨[], (sep ++ joinSep sep (b :: t)).data, by
          simp [hs, joinSep, strData_append]⟩
      · obtain ⟨u, v, huv⟩ := ih hs
        exact ⟨a.data ++ sep.data ++ u, v, by
          simp [joinSep, strData_append, huv]⟩

/-- A string with a non-empty right component is non-empty. -/
theorem strLen_append_right_pos (p s : String) (h : s.length ≠ 0) :
    ((p ++ s).length == 0) = false := by
  rw [beq_eq_false_iff_ne, String.length_append]
  omega

set_option maxRecDepth 100000 in
set_option maxHeartbeats 1000000 in
/-- C9: `buildPrompt` renders the fixed section order — the eight core
sections, the conditional examples section, the instruction block and the
closing directive — with every core section present in the prompt even for
empty lists, the empty case yielding the fixed placeholder sentence. -/
theorem prompt_shape_stable (a : ComponentAnalysis) (ex : Option (List String)) :
    (buildPrompt a ex
      = joinSep "\n\n"
          ([promptHeader, sectionOverview a, sectionProps a, sectionState a, sectionHooks a,
            sectionHandlers a, sectionImports a, sectionRecommendations a]
            ++ (if optListTruthy ex then [sectionExamples ex] else [])
            ++ [promptInstructions, promptClosing]))
    ∧ (a.props = [] → sectionProps a = "Props:\nNo explicit props detected.\n")
    ∧ (a.state = [] → sectionState a = "State:\nNo local state hooks detected.\n")
    ∧ (a.hooks = [] → sectionHooks a = "Hooks:\nNo hooks detected.\n")
    ∧ (a.eventHandlers = []
        → sectionHandlers a = "Event Handlers:\nNo explicit event handlers detected.\n")
    ∧ (a.imports = []
        → sectionImports a = "Imported Dependencies:\nNo external dependencies detected.\n")
    ∧ (a.testingRecommendations = []
        → sectionRecommendations a
          = "Testing Recommendations:\nFollow standard React Testing Library best practices.\n")
    ∧ (∀ s ∈ [promptHeader, sectionOverview a, sectionProps a, sectionState a, sectionHooks a,
          sectionHandlers a, sectionImports a, sectionRecommendations a, promptInstructions,
          promptClosing], occursIn s (buildPrompt a ex)) := by
  have h1 : (promptHeader.length == 0) = false := by decide
  have h2 : ((sectionOverview a).length == 0) = false :=
    strLen_append_right_pos _ "\n" (by decide)
  have h3 : ((sectionProps a).length == 0) = false :=
    strLen_append_right_pos _ "\n" (by decide)
  have h4 : ((sectionState a).length == 0) = false :=
    strLen_append_right_pos _ "\n" (by decide)
  have h5 : ((sectionHooks a).length == 0) = false :=
    strLen_append_right_pos _ "\n" (by decide)
  have h6 : ((sectionHandlers a).length == 0) = false :=
    strLen_append_right_pos _ "\n" (by decide)
  have h7 : ((sectionImports a).length == 0) = false :=
    strLen_append_right_pos _ "\n" (by decide)
  have h8 : ((sectionRecommendations a).length == 0) = false :=
    strLen_append_right_pos _ "\n" (by decide)
  have h9 : (promptInstructions.length == 0) = false := by decide
  have h10 : (promptClosing.length == 0) = false := by decide
  have hfilter :
      ([promptHeader, sectionOverview a, sectionProps a, sectionState a, sectionHooks a,
          sectionHandlers a, sectionImports a, sectionRecommendations a, sectionExamples ex,
          promptInstructions, promptClosing].filter fun s => !(s.length == 0))
        = [promptHeader, sectionOverview a, sectionProps a, sectionState a, sectionHooks a,
            sectionHandlers a, sectionImports a, sectionRecommendations a]
          ++ (if optListTruthy ex then [sectionExamples ex] else [])
          ++ [promptInstructions, promptClosing] := by
    by_cases hex : optListTruthy ex = true
    · have hexval : sectionExamples ex
          = "Few-shot Examples:\n" ++ joinSep "\n---\n" (ex.getD []) ++ "\n" := by
        simp [sectionExamples, hex]
      have hexs : ((sectionExamples ex).length == 0) = false := by
        rw [hexval]
        exact strLen_append_right_pos _ "\n" (by decide)
      simp [List.filter_cons, h1, h2, h3, h4, h5, h6, h7, h8, h9, h10, hexs, hex]
    · have hexs : sectionExamples ex = "" := by
        simp [sectionExamples, hex]
      simp [List.filter_cons, h1, h2, h3, h4, h5, h6, h7, h8, h9, h10, hexs, hex]
  have hmain : buildPrompt a ex
      = joinSep "\n\n"
          ([promptHeader, sectionOverview a, sectionProps a, sectionState a, sectionHooks a,
            sectionHandlers a, sectionImports a, sectionRecommendations a]
            ++ (if optListTruthy ex then [sectionExamples ex] else [])
            ++ [promptInstructions, promptClosing]) := by
    unfold buildPrompt
    rw [hfilter]
  refine ⟨hmain, ?_, ?_, ?_, ?_, ?_, ?_, ?_⟩
  · intro h
    simp only [sectionProps, formatProps, h, List.length_nil]
    rfl
  · intro h
    simp only [sectionState, h, List.length_nil]
    rfl
  · intro h
    simp only [sectionHooks, formatHooks, h, List.length_nil]
    rfl
  · intro h
    simp only [sectionHandlers, formatEventHandlers, h, List.length_nil]
    rfl
  · intro h
    simp only [sectionImports, h, List.length_nil]
    rfl
  · intro h
    simp only [sectionRecommendations, formatTestingRecommendations, h, List.length_nil]
    rfl
  · intro s hs
    rw [hmain]
    apply occursIn_joinSep
    simp only [List.mem_cons, List.mem_append, List.not_mem_nil, or_false] at hs ⊢
    tauto

set_option maxRecDepth 100000 in
set_option maxHeartbeats 1000000 in
/-- Witness for C9 at an analysis with every list empty: each placeholder
sentence renders and the props section occurs in the built prompt. -/
theorem prompt_shape_stable_witness :
    (let a0 : ComponentAnalysis :=
      { name := "Empty", type := .functional, props := [], state := [], hooks := []
        eventHandlers := [], imports := [], dataTestIds := [], complexity := 1
        testingRecommendations := [] }
     sectionProps a0 = "Props:\nNo explicit props detected.\n"
      ∧ sectionState a0 = "State:\nNo local state hooks detected.\n"
      ∧ sectionHooks a0 = "Hooks:\nNo hooks detected.\n"
      ∧ sectionHandlers a0 = "Event Handlers:\nNo explicit event handlers detected.\n"
      ∧ sectionImports a0 = "Imported Dependencies:\nNo external dependencies detected.\n"
      ∧ sectionRecommendations a0
          = "Testing Recommendations:\nFollow standard React Testing Library best practices.\n"
      ∧ occursIn (sectionProps a0) (buildPrompt a0 none)) := by
  refine ⟨(prompt_shape_stable _ none).2.1 rfl,
    (prompt_shape_stable _ none).2.2.1 rfl,
    (prompt_shape_stable _ none).2.2.2.1 rfl,
    (prompt_shape_stable _ none).2.2.2.2.1 rfl,
    (prompt_shape_stable _ none).2.2.2.2.2.1 rfl,
    (prompt_shape_stable _ none).2.2.2.2.2.2.1 rfl,
    (prompt_shape_stable _ none).2.2.2.2.2.2.2 _ (by simp)⟩

/-! ## Gateway generate-test route
(api-gateway/src/routes/test-generator.ts, `router.post('/generate-test')`,
lines 68-105; gateway types in api-gateway/src/types/index.ts) -/

/-- Gateway `GeneratedTest` (types/index.ts lines 35-40). -/
structure GwGeneratedTest where
  fileName : String
  content : String
  relativePath : Option String
  summary : Option String
  deriving DecidableEq, Repr

/-- Gateway `ValidationResult` (types/index.ts lines 42-46). -/
structure GwValidationResult where
  valid : Bool
  issues : List String
  generatedTest : GwGeneratedTest
  deriving DecidableEq, Repr

/-- Gateway `ServiceError` fields (types/index.ts lines 80-103); `details`
is the structured details payload (here always an issue list). -/
structure GwServiceError where
  message : String
  statusCode : Nat
  code : String
  correlationId : Option String
  details : List String
  deriving DecidableEq, Repr

/-- `ServiceError.validation` (types/index.ts lines 105-107): HTTP 400,
kind `'validation_error'`. -/
def GwServiceError.validation (message : String) (details : List String)
    (correlationId : Option String) : GwServiceError :=
  { message := message, statusCode := 400, code := "validation_error"
    correlationId := correlationId, details := details }

/-- Embeds the `/generate-test` handler (lines 76-103): analyze, generate,
validate in sequence — each stage's failure is terminal — then throw a
validation `ServiceError` carrying the issues when the verdict is invalid,
otherwise respond with the validated test (relativePath backfilled from the
generation stage).  Each downstream call is modelled by its result. -/
def generateTestRoute (correlationId : Option String)
    (analyzeStage : Except GwServiceError ComponentAnalysis)
    (generateStage : ComponentAnalysis → Except GwServiceError GwGeneratedTest)
    (validateStage : GwGeneratedTest → Except GwServiceError GwValidationResult) :
    Except GwServiceError GwGeneratedTest := do
  let analysis ← analyzeStage
  let generatedTest ← generateStage analysis
  let validation ← validateStage generatedTest
  if !validation.valid then
    throw (GwServiceError.validation "Generated test failed validation." validation.issues
      correlationId)
  else
    pure { validation.generatedTest with
      relativePath := validation.generatedTest.relativePath.orElse
        fun _ => generatedTest.relativePath }

/-- C10: when all three stages succeed, an invalid verdict makes the whole
request fail with the validation-kind error whose details are exactly the
validation issues (the caller never receives the generated content), and
the test is returned exactly when the verdict is valid. -/
theorem pipeline_validation_gate (cid : Option String)
    (a : ComponentAnalysis) (g : GwGeneratedTest) (v : GwValidationResult)
    (analyzeStage : Except GwServiceError ComponentAnalysis)
    (generateStage : ComponentAnalysis → Except GwServiceError GwGeneratedTest)
    (validateStage : GwGeneratedTest → Except GwServiceError GwValidationResult)
    (ha : analyzeStage = .ok a) (hg : generateStage a = .ok g)
    (hv : validateStage g = .ok v) :
    (v.valid = false →
      generateTestRoute cid analyzeStage generateStage validateStage
        = .error
            (GwServiceError.validation "Generated test failed validation." v.issues cid))
    ∧ (v.valid = true →
      generateTestRoute cid analyzeStage generateStage validateStage
        = .ok { v.generatedTest with
            relativePath := v.generatedTest.relativePath.orElse fun _ => g.relativePath })
    ∧ (∀ t, generateTestRoute cid analyzeStage generateStage validateStage = .ok t →
        v.valid = true) := by
  subst ha
  refine ⟨?_, ?_, ?_⟩
  · intro h
    simp [generateTestRoute, hg, hv, h, Bind.bind, Except.bind, throw, throwThe,
      MonadExceptOf.throw, Pure.pure, Except.pure]
  · intro h
    simp [generateTestRoute, hg, hv, h, Bind.bind, Except.bind, throw, throwThe,
      MonadExceptOf.throw, Pure.pure, Except.pure]
  · intro t ht
    by_contra hval
    have h : v.valid = false := by
      cases hv' : v.valid
      · rfl
      · exact absurd hv' hval
    simp [generateTestRoute, hg, hv, h, Bind.bind, Except.bind, throw, throwThe,
      MonadExceptOf.throw, Pure.pure, Except.pure] at ht

/-- Witness for C10: concrete stages, one invalid verdict and one valid. -/
theorem pipeline_validation_gate_witness :
    (let g0 : GwGeneratedTest :=
      { fileName := "Empty.test.tsx", content := "content", relativePath := none
        summary := none }
     let a0 : ComponentAnalysis :=
      { name := "Empty", type := .functional, props := [], state := [], hooks := []
        eventHandlers := [], imports := [], dataTestIds := [], complexity := 1
        testingRecommendations := [] }
     (generateTestRoute none (.ok a0) (fun _ => .ok g0)
          (fun t => .ok { valid := false, issues := ["Missing import"], generatedTest := t })
        = .error (GwServiceError.validation "Generated test failed validation."
            ["Missing import"] none))
      ∧ (generateTestRoute none (.ok a0) (fun _ => .ok g0)
            (fun t => .ok { valid := true, issues := [], generatedTest := t })
          = .ok { g0 with relativePath := g0.relativePath.orElse fun _ => g0.relativePath })) := by
  refine ⟨(pipeline_validation_gate none _ _ _ _ _ _ rfl rfl rfl).1 rfl,
    (pipeline_validation_gate none _ _ _ _ _ _ rfl rfl rfl).2.1 rfl⟩

end RtlGen
